import Mathlib

/-!
Shallow embedding of `src/Auth.ts` of the office365-cli repository:
the `Service` token store, `Auth.ensureAccessToken`, `Auth.getAccessToken`
and `Auth.getResourceFromUrl`, together with proofs of the specification
claims about them.

Network I/O is modelled by an environment (`Env`) that fixes the current
time and the outcome of each request the code may issue; the functions
return the final token store, the list of requests actually issued, and
the promise outcome.  Optional / possibly-`undefined` TypeScript fields
are modelled with `Option`; JavaScript truthiness of an optional string
(`undefined` and `""` are falsy) is modelled by `truthy`.
-/

/-- The `Service` class of `Auth.ts`: the token store.
`accessToken` and `refreshToken` are `Option String` because the
TypeScript fields may hold `undefined` (the code explicitly tests
`accessToken !== undefined`, and `refreshToken?` is optional). -/
structure Service where
  connected : Bool
  resource : String
  accessToken : Option String
  refreshToken : Option String
  expiresAt : Int
  deriving Repr, DecidableEq

/-- `Service.disconnect` from `Auth.ts` lines 10-16: resets every field.
Setting `accessToken` to `''` is `some ""`; `refreshToken = undefined`
is `none`. -/
def Service.disconnect (_s : Service) : Service :=
  { connected := false
    resource := ""
    accessToken := some ""
    refreshToken := none
    expiresAt := -1 }

/-- The `Token` interface: a successful token-endpoint response. -/
structure Token where
  access_token : String
  refresh_token : String
  expires_on : Int
  deriving Repr, DecidableEq

/-- The inner object of the `Error` interface. -/
structure ErrorInfo where
  error : String
  error_description : String
  deriving Repr, DecidableEq

/-- The `Error` interface: a structured error response
`{error: {error, error_description}}`. -/
structure ErrorPayload where
  error : ErrorInfo
  deriving Repr, DecidableEq

/-- The `DeviceCode` interface: the device-code endpoint response. -/
structure DeviceCode where
  interval : Int
  device_code : String
  message : String
  deriving Repr, DecidableEq

/-- Outcome of one POST to the token endpoint: the promise either
fulfils with a `Token` or rejects with a structured `ErrorPayload`. -/
inductive TokenResponse where
  | success (t : Token)
  | failure (e : ErrorPayload)
  deriving Repr, DecidableEq

/-- A JavaScript value passed to `reject`: either a plain string (an
extracted error code) or the full structured error payload. -/
inductive JsValue where
  | str (s : String)
  | errObj (e : ErrorPayload)
  deriving Repr, DecidableEq

/-- A network request issued by the code, identified by endpoint and
grant type together with the data that parametrises it. -/
inductive NetRequest where
  | refreshTokenExchange (resource : String) (refreshToken : String)
  | deviceCodeRequest (resource : String)
  | pollRequest (resource : String) (deviceCode : String)
  deriving Repr, DecidableEq

/-- State of the promise returned by `ensureAccessToken` once the
modelled responses are exhausted. -/
inductive Outcome where
  | resolved (accessToken : String)
  | rejected (err : JsValue)
  | pending
  deriving Repr, DecidableEq

/-- The environment: current time and the outcome of every request the
call may issue.  `pollResponses` lists the outcomes of successive
polling ticks of the device-code flow. -/
structure Env where
  now : Int
  refreshResponse : TokenResponse
  deviceCodeResponse : Except JsValue DeviceCode
  pollResponses : List TokenResponse
  deriving Repr

/-- JavaScript truthiness of an optional string: `undefined` and the
empty string are falsy (`if (this.service.refreshToken)`). -/
def truthy : Option String → Bool
  | none => false
  | some s => s ≠ ""

/-- Result of a call to `ensureAccessToken`: the token store after the
call, the requests issued, the promise outcome, and whether a polling
timer is still live (`setInterval` fired and no `clearInterval` ran). -/
structure EnsureResult where
  service : Service
  trace : List NetRequest
  outcome : Outcome
  timerActive : Bool
  deriving Repr, DecidableEq

/-- The `setInterval` polling loop of the device-code flow
(`Auth.ts` lines 142-191), one recursive step per timer tick.  A
successful tick stores the new triple, cancels the timer and resolves
with the stored access token; an `authorization_pending` error leaves
the timer running and polls on; any other error cancels the timer and
rejects with the error code.  An exhausted response list models a
still-pending promise with the timer live. -/
def pollLoop (resource deviceCode : String) (svc : Service) :
    List TokenResponse → EnsureResult
  | [] => ⟨svc, [], .pending, true⟩
  | .success t :: _ =>
      ⟨{ svc with accessToken := some t.access_token
                  refreshToken := some t.refresh_token
                  expiresAt := t.expires_on },
       [.pollRequest resource deviceCode], .resolved t.access_token, false⟩
  | .failure e :: rest =>
      if e.error.error ≠ "authorization_pending" then
        ⟨svc, [.pollRequest resource deviceCode],
         .rejected (.str e.error.error), false⟩
      else
        let r := pollLoop resource deviceCode svc rest
        ⟨r.service, .pollRequest resource deviceCode :: r.trace,
         r.outcome, r.timerActive⟩

/-- `Auth.ensureAccessToken` (`Auth.ts` lines 44-197).  The cached
token is returned without any request when `expiresAt > now` and
`accessToken !== undefined`; otherwise a truthy `refreshToken` selects
the refresh-token exchange, else the device-code flow runs: one GET to
the device-code endpoint followed by the polling loop. -/
def ensureAccessToken (svc : Service) (resource : String) (env : Env) :
    EnsureResult :=
  if svc.expiresAt > env.now ∧ svc.accessToken ≠ none then
    ⟨svc, [], .resolved (svc.accessToken.getD ""), false⟩
  else if truthy svc.refreshToken then
    match env.refreshResponse with
    | .success t =>
        ⟨{ svc with accessToken := some t.access_token
                    refreshToken := some t.refresh_token
                    expiresAt := t.expires_on },
         [.refreshTokenExchange resource (svc.refreshToken.getD "")],
         .resolved t.access_token, false⟩
    | .failure e =>
        ⟨svc, [.refreshTokenExchange resource (svc.refreshToken.getD "")],
         .rejected (.str e.error.error), false⟩
  else
    match env.deviceCodeResponse with
    | .error err => ⟨svc, [.deviceCodeRequest resource], .rejected err, false⟩
    | .ok dc =>
        let r := pollLoop resource dc.device_code svc env.pollResponses
        ⟨r.service, .deviceCodeRequest resource :: r.trace,
         r.outcome, r.timerActive⟩

/-- Result of a call to `getAccessToken`: the (untouched) token store,
the requests issued and the promise outcome. -/
structure GetTokenResult where
  service : Service
  trace : List NetRequest
  outcome : Outcome
  deriving Repr, DecidableEq

/-- `Auth.getAccessToken` (`Auth.ts` lines 199-238): a one-shot
refresh-token exchange with an explicitly supplied refresh token.  The
body never mentions `this.service`; on success it resolves with only
`json.access_token`, and on failure it runs `reject(err)` with the raw
rejection value - the full payload, not an extracted code. -/
def getAccessToken (svc : Service) (resource refreshToken : String)
    (response : TokenResponse) : GetTokenResult :=
  match response with
  | .success t =>
      ⟨svc, [.refreshTokenExchange resource refreshToken],
       .resolved t.access_token⟩
  | .failure e =>
      ⟨svc, [.refreshTokenExchange resource refreshToken],
       .rejected (.errObj e)⟩

/-- JavaScript `String.prototype.indexOf(char, from)` restricted to a
character needle, on the character list `l.drop start` with absolute
indices: `-1` when absent. -/
def indexOfFromAux (c : Char) : List Char → Nat → Int
  | [], _ => -1
  | x :: xs, i => if x = c then (i : Int) else indexOfFromAux c xs (i + 1)

/-- `url.indexOf('/', start)` of `Auth.ts` line 242: index of the first
occurrence of `c` at position `start` or later, `-1` when none. -/
def stringIndexOfFrom (s : String) (c : Char) (start : Nat) : Int :=
  indexOfFromAux c (s.toList.drop start) start

/-- `Auth.getResourceFromUrl` (`Auth.ts` lines 240-248): truncate the
URL at the first `'/'` found at index 8 or later (`substr(0, pos)`),
or return it unchanged when there is none. -/
def getResourceFromUrl (url : String) : String :=
  let pos : Int := stringIndexOfFrom url '/' 8
  if pos > -1 then (url.toList.take pos.toNat).asString else url

/-! ### Helper lemmas -/

theorem toList_append_eq (s t : String) : (s ++ t).toList = s.toList ++ t.toList :=
  rfl

theorem pollLoop_connected_resource (resource deviceCode : String) (svc : Service) :
    ∀ rs : List TokenResponse,
      (pollLoop resource deviceCode svc rs).service.connected = svc.connected ∧
      (pollLoop resource deviceCode svc rs).service.resource = svc.resource := by
  intro rs
  induction rs with
  | nil => exact ⟨rfl, rfl⟩
  | cons r rest ih =>
    cases r with
    | success t => exact ⟨rfl, rfl⟩
    | failure e =>
      by_cases hp : e.error.error = "authorization_pending"
      · simpa [pollLoop, hp] using ih
      · simp [pollLoop, hp]

theorem pollLoop_rejected_frame (resource deviceCode : String) (svc : Service)
    (rs : List TokenResponse) (e : JsValue)
    (h : (pollLoop resource deviceCode svc rs).outcome = .rejected e) :
    (pollLoop resource deviceCode svc rs).service = svc := by
  induction rs with
  | nil => rfl
  | cons r rest ih =>
    cases r with
    | success t => simp [pollLoop] at h
    | failure e2 =>
      by_cases hp : e2.error.error = "authorization_pending"
      · simp only [pollLoop, hp, ne_eq, not_true_eq_false, if_false] at h ⊢
        exact ih h
      · simp [pollLoop, hp]

/-! ### Claim theorems -/

/-- C1: if the stored access token is a non-empty string and
`expiresAt` is strictly greater than the current time, then
`ensureAccessToken` resolves with the cached access token, issues no
network request at all (the trace is empty: no refresh-token exchange
and no device-code request), and leaves the store untouched. -/
theorem ensureAccessToken_cached_hit (svc : Service) (resource : String)
    (env : Env) (a : String) (ha : svc.accessToken = some a) (_hne : a ≠ "")
    (hexp : svc.expiresAt > env.now) :
    ensureAccessToken svc resource env = ⟨svc, [], .resolved a, false⟩ := by
  simp [ensureAccessToken, ha, hexp]

/-- Witness for C1 at a concrete store and environment. -/
theorem ensureAccessToken_cached_hit_witness :
    ensureAccessToken ⟨true, "r", some "AT0", some "RT1", 100⟩ "res"
        ⟨50, .failure ⟨⟨"invalid_grant", "x"⟩⟩, .error (.str "e"), []⟩ =
      ⟨⟨true, "r", some "AT0", some "RT1", 100⟩, [], .resolved "AT0", false⟩ :=
  ensureAccessToken_cached_hit _ _ _ "AT0" rfl (by decide) (by decide)

/-- C5: `disconnect` always produces the fully reset store
(`connected = false`, `accessToken = ''`, `resource = ''`,
`refreshToken = undefined`, `expiresAt = -1`), whatever the prior
state, and is therefore idempotent. -/
theorem disconnect_resets (s : Service) :
    Service.disconnect s = ⟨false, "", some "", none, -1⟩ ∧
    Service.disconnect (Service.disconnect s) = Service.disconnect s :=
  ⟨rfl, rfl⟩

/-- C9: `ensureAccessToken` never modifies the `connected` and
`resource` fields of the store, on any path (cached hit, refresh
success or failure, device-code flow); in particular a first-time
device-code success does not set `connected` to `true`. -/
theorem ensureAccessToken_preserves_connected_resource
    (svc : Service) (resource : String) (env : Env) :
    (ensureAccessToken svc resource env).service.connected = svc.connected ∧
    (ensureAccessToken svc resource env).service.resource = svc.resource := by
  by_cases h1 : svc.expiresAt > env.now ∧ svc.accessToken ≠ none
  · simp [ensureAccessToken, h1]
  · by_cases h2 : truthy svc.refreshToken
    · cases hr : env.refreshResponse with
      | success t => simp [ensureAccessToken, h1, h2, hr]
      | failure e2 => simp [ensureAccessToken, h1, h2, hr]
    · cases hd : env.deviceCodeResponse with
      | error err => simp [ensureAccessToken, h1, h2, hd]
      | ok dc =>
        simpa [ensureAccessToken, h1, h2, hd] using
          pollLoop_connected_resource resource dc.device_code svc env.pollResponses

/-- C3: whenever `ensureAccessToken` rejects (refresh-token exchange
rejected, device-code request rejected, or a polling tick rejected with
a non-pending error code), the token store is exactly as it was before
the call; in the concrete invalid_grant scenario the call rejects with
the string "invalid_grant" and `refreshToken` is still "RT1". -/
theorem ensureAccessToken_failure_frame :
    (∀ (svc : Service) (resource : String) (env : Env) (e : JsValue),
        (ensureAccessToken svc resource env).outcome = .rejected e →
        (ensureAccessToken svc resource env).service = svc) ∧
    ((ensureAccessToken ⟨true, "r0", some "AT0", some "RT1", 10⟩ "res"
        ⟨50, .failure ⟨⟨"invalid_grant", "token revoked"⟩⟩, .error (.str "dc"),
         []⟩).outcome = .rejected (.str "invalid_grant") ∧
     (ensureAccessToken ⟨true, "r0", some "AT0", some "RT1", 10⟩ "res"
        ⟨50, .failure ⟨⟨"invalid_grant", "token revoked"⟩⟩, .error (.str "dc"),
         []⟩).service = ⟨true, "r0", some "AT0", some "RT1", 10⟩) := by
  constructor
  · intro svc resource env e h
    by_cases h1 : svc.expiresAt > env.now ∧ svc.accessToken ≠ none
    · simp [ensureAccessToken, h1] at h
    · by_cases h2 : truthy svc.refreshToken
      · cases hr : env.refreshResponse with
        | success t => simp [ensureAccessToken, h1, h2, hr] at h
        | failure e2 => simp [ensureAccessToken, h1, h2, hr]
      · cases hd : env.deviceCodeResponse with
        | error err => simp [ensureAccessToken, h1, h2, hd]
        | ok dc =>
          simp [ensureAccessToken, h1, h2, hd] at h ⊢
          exact pollLoop_rejected_frame _ _ _ _ e h
  · constructor
    · decide
    · decide

/-- Witness for C3: the frame property applied at the concrete
invalid_grant scenario. -/
theorem ensureAccessToken_failure_frame_witness :
    (ensureAccessToken ⟨true, "r0", some "AT0", some "RT1", 10⟩ "res"
        ⟨50, .failure ⟨⟨"invalid_grant", "token revoked"⟩⟩, .error (.str "dc"),
         []⟩).service = ⟨true, "r0", some "AT0", some "RT1", 10⟩ :=
  ensureAccessToken_failure_frame.1 ⟨true, "r0", some "AT0", some "RT1", 10⟩
    "res" ⟨50, .failure ⟨⟨"invalid_grant", "token revoked"⟩⟩, .error (.str "dc"), []⟩
    (.str "invalid_grant") (by decide)

/-- C4: one step of the device-code polling loop.  An
`authorization_pending` error tick leaves the timer running, the
promise unresolved and the store unchanged, merely continuing with the
remaining ticks (in particular, when it is the last modelled tick the
result is a live timer, a pending outcome and an untouched store); any
other error tick cancels the timer and rejects with exactly that error
code; a token tick cancels the timer, stores the new triple and
resolves with the new access token. -/
theorem pollLoop_tick_behavior
    (resource deviceCode : String) (svc : Service)
    (rest : List TokenResponse) :
    (∀ e : ErrorPayload, e.error.error = "authorization_pending" →
        pollLoop resource deviceCode svc (.failure e :: rest) =
          ⟨(pollLoop resource deviceCode svc rest).service,
           .pollRequest resource deviceCode ::
             (pollLoop resource deviceCode svc rest).trace,
           (pollLoop resource deviceCode svc rest).outcome,
           (pollLoop resource deviceCode svc rest).timerActive⟩ ∧
        pollLoop resource deviceCode svc [.failure e] =
          ⟨svc, [.pollRequest resource deviceCode], .pending, true⟩) ∧
    (∀ e : ErrorPayload, e.error.error ≠ "authorization_pending" →
        pollLoop resource deviceCode svc (.failure e :: rest) =
          ⟨svc, [.pollRequest resource deviceCode],
           .rejected (.str e.error.error), false⟩) ∧
    (∀ t : Token,
        pollLoop resource deviceCode svc (.success t :: rest) =
          ⟨{ svc with accessToken := some t.access_token
                      refreshToken := some t.refresh_token
                      expiresAt := t.expires_on },
           [.pollRequest resource deviceCode], .resolved t.access_token,
           false⟩) := by
  refine ⟨fun e he => ⟨?_, ?_⟩, fun e he => ?_, fun t => rfl⟩
  · simp [pollLoop, he]
  · simp [pollLoop, he]
  · simp [pollLoop, he]

/-- Witness for C4 at concrete ticks: a pending tick keeps the timer
alive with the promise pending, a `code_expired` tick rejects with
"code_expired" and stops the timer. -/
theorem pollLoop_tick_behavior_witness :
    pollLoop "res" "dc" ⟨false, "", none, none, -1⟩
        [.failure ⟨⟨"authorization_pending", "p"⟩⟩] =
      ⟨⟨false, "", none, none, -1⟩, [.pollRequest "res" "dc"], .pending, true⟩ ∧
    pollLoop "res" "dc" ⟨false, "", none, none, -1⟩
        [.failure ⟨⟨"code_expired", "x"⟩⟩] =
      ⟨⟨false, "", none, none, -1⟩, [.pollRequest "res" "dc"],
       .rejected (.str "code_expired"), false⟩ :=
  ⟨((pollLoop_tick_behavior "res" "dc" ⟨false, "", none, none, -1⟩ []).1
      ⟨⟨"authorization_pending", "p"⟩⟩ (by decide)).2,
   (pollLoop_tick_behavior "res" "dc" ⟨false, "", none, none, -1⟩ []).2.1
      ⟨⟨"code_expired", "x"⟩⟩ (by decide)⟩

/-- C2 fails as stated: with `accessToken = ''` (the empty string, not
`undefined`), `refreshToken = "RT1"` set, and `expiresAt > now`, the
code's check `accessToken !== undefined` succeeds, so the call serves
the empty cached token and issues no refresh-token exchange at all. -/
theorem ensureAccessToken_empty_token_counterexample :
    (⟨false, "", some "", some "RT1", 10⟩ : Service).accessToken = some "" ∧
    truthy (⟨false, "", some "", some "RT1", 10⟩ : Service).refreshToken
      = true ∧
    ensureAccessToken ⟨false, "", some "", some "RT1", 10⟩ "res"
        ⟨5, .success ⟨"AT1", "RT2", 3600⟩, .error (.str "dc"), []⟩ =
      ⟨⟨false, "", some "", some "RT1", 10⟩, [], .resolved "", false⟩ := by
  decide

/-- C2 (amended): if `accessToken` is `undefined` or `expiresAt <= now`,
and `refreshToken` holds a non-empty string, then `ensureAccessToken`
issues exactly one refresh-token exchange and nothing else (in
particular no device-code request), and when that exchange succeeds the
store's `accessToken`, `refreshToken` and `expiresAt` become the
response's `access_token`, `refresh_token` and `expires_on`, and the
call resolves with that `access_token`. -/
theorem ensureAccessToken_refresh_amended
    (svc : Service) (resource : String) (env : Env) (rt : String)
    (hrt : svc.refreshToken = some rt) (hne : rt ≠ "")
    (hstale : svc.accessToken = none ∨ svc.expiresAt ≤ env.now) :
    (ensureAccessToken svc resource env).trace =
      [.refreshTokenExchange resource rt] ∧
    (∀ t : Token, env.refreshResponse = .success t →
        ensureAccessToken svc resource env =
          ⟨{ svc with accessToken := some t.access_token
                      refreshToken := some t.refresh_token
                      expiresAt := t.expires_on },
           [.refreshTokenExchange resource rt], .resolved t.access_token,
           false⟩) := by
  have h1 : ¬(svc.expiresAt > env.now ∧ svc.accessToken ≠ none) := by
    rcases hstale with h | h
    · exact fun hc => hc.2 h
    · exact fun hc => absurd hc.1 (not_lt.mpr h)
  have h2 : truthy svc.refreshToken = true := by simp [truthy, hrt, hne]
  constructor
  · cases hr : env.refreshResponse with
    | success t => simp [ensureAccessToken, truthy, h1, hne, hr, hrt]
    | failure e => simp [ensureAccessToken, truthy, h1, hne, hr, hrt]
  · intro t hr
    simp [ensureAccessToken, truthy, h1, hne, hr, hrt]

/-- Witness for C2 (amended) at a concrete store and environment. -/
theorem ensureAccessToken_refresh_amended_witness :
    (ensureAccessToken ⟨true, "r0", some "AT0", some "RT1", 10⟩ "res"
        ⟨50, .success ⟨"AT1", "RT2", 3600⟩, .error (.str "dc"), []⟩).trace =
      [.refreshTokenExchange "res" "RT1"] ∧
    ensureAccessToken ⟨true, "r0", some "AT0", some "RT1", 10⟩ "res"
        ⟨50, .success ⟨"AT1", "RT2", 3600⟩, .error (.str "dc"), []⟩ =
      ⟨⟨true, "r0", some "AT1", some "RT2", 3600⟩,
       [.refreshTokenExchange "res" "RT1"], .resolved "AT1", false⟩ := by
  have h := ensureAccessToken_refresh_amended
    ⟨true, "r0", some "AT0", some "RT1", 10⟩ "res"
    ⟨50, .success ⟨"AT1", "RT2", 3600⟩, .error (.str "dc"), []⟩ "RT1"
    rfl (by decide) (.inr (by decide))
  exact ⟨h.1, h.2 ⟨"AT1", "RT2", 3600⟩ rfl⟩

/-- C6 fails as stated: when the token endpoint rejects the one-shot
exchange with a structured payload, `getAccessToken` runs
`reject(err)` and so rejects with the full payload, not with the
extracted error code `err.error.error` the way the refresh path of
`ensureAccessToken` does. -/
theorem getAccessToken_reject_counterexample :
    (getAccessToken ⟨false, "", none, none, -1⟩ "res" "RT1"
        (.failure ⟨⟨"invalid_grant", "token revoked"⟩⟩)).outcome =
      .rejected (.errObj ⟨⟨"invalid_grant", "token revoked"⟩⟩) ∧
    (getAccessToken ⟨false, "", none, none, -1⟩ "res" "RT1"
        (.failure ⟨⟨"invalid_grant", "token revoked"⟩⟩)).outcome ≠
      .rejected (.str "invalid_grant") := by
  decide

/-- C6 (amended): on a structured error from the token endpoint,
`getAccessToken` rejects with the full error payload — a different
rejection value from the extracted error code that the refresh path of
`ensureAccessToken` rejects with. -/
theorem getAccessToken_rejects_full_payload
    (svc : Service) (resource rt : String) (e : ErrorPayload) :
    (getAccessToken svc resource rt (.failure e)).outcome =
      .rejected (.errObj e) ∧
    Outcome.rejected (.errObj e) ≠ .rejected (.str e.error.error) := by
  exact ⟨rfl, by simp⟩

/-- C7: `getAccessToken` neither reads nor writes the shared token
store — the store after the call is the store before it, and the trace
and outcome are the same whatever the store holds — and on success it
resolves with only the `access_token` of the response, discarding the
returned `refresh_token` and `expires_on`. -/
theorem getAccessToken_no_tokenstore_effect
    (svc svc2 : Service) (resource rt : String) (response : TokenResponse) :
    (getAccessToken svc resource rt response).service = svc ∧
    (getAccessToken svc resource rt response).outcome =
      (getAccessToken svc2 resource rt response).outcome ∧
    (getAccessToken svc resource rt response).trace =
      (getAccessToken svc2 resource rt response).trace ∧
    (∀ t : Token, (getAccessToken svc resource rt (.success t)).outcome =
        .resolved t.access_token) := by
  cases response <;> exact ⟨rfl, rfl, rfl, fun t => rfl⟩

/-! ### Lemmas about the character search of `getResourceFromUrl` -/

theorem indexOfFromAux_of_not_mem (c : Char) :
    ∀ l : List Char, c ∉ l → ∀ i : Nat, indexOfFromAux c l i = -1 := by
  intro l
  induction l with
  | nil => intro _ _; rfl
  | cons x xs ih =>
    intro h i
    simp only [List.mem_cons, not_or] at h
    have hx : ¬x = c := fun hxc => h.1 hxc.symm
    simp [indexOfFromAux, hx, ih h.2 (i + 1)]

theorem indexOfFromAux_append_cons (c : Char) :
    ∀ l1 l2 : List Char, c ∉ l1 → ∀ i : Nat,
      indexOfFromAux c (l1 ++ c :: l2) i = ((i + l1.length : Nat) : Int) := by
  intro l1
  induction l1 with
  | nil => intro l2 _ i; simp [indexOfFromAux]
  | cons x xs ih =>
    intro l2 h i
    simp only [List.mem_cons, not_or] at h
    have hx : ¬x = c := fun hxc => h.1 hxc.symm
    have hrec := ih l2 h.2 (i + 1)
    have hstep : indexOfFromAux c ((x :: xs) ++ c :: l2) i
        = indexOfFromAux c (xs ++ c :: l2) (i + 1) := by
      simp [indexOfFromAux, hx]
    rw [hstep, hrec, List.length_cons]
    omega

theorem indexOfFromAux_first (c : Char) :
    ∀ (l : List Char) (i : Nat),
      indexOfFromAux c l i = -1 ∨
      ∃ k : Nat, indexOfFromAux c l i = ((i + k : Nat) : Int) ∧
        c ∉ l.take k := by
  intro l
  induction l with
  | nil => intro _; exact Or.inl rfl
  | cons x xs ih =>
    intro i
    by_cases hx : x = c
    · refine Or.inr ⟨0, ?_, ?_⟩
      · simp [indexOfFromAux, hx]
      · simp
    · rcases ih (i + 1) with h | ⟨k, hk, hmem⟩
      · exact Or.inl (by simp [indexOfFromAux, hx, h])
      · refine Or.inr ⟨k + 1, ?_, ?_⟩
        · simp only [indexOfFromAux, if_neg hx, hk]
          omega
        · simp only [List.take_succ_cons, List.mem_cons, not_or]
          exact ⟨fun hc => hx hc.symm, hmem⟩

theorem getResourceFromUrl_of_no_slash (u : String)
    (h : stringIndexOfFrom u '/' 8 = -1) : getResourceFromUrl u = u := by
  simp [getResourceFromUrl, h]

/-- C8: for a full HTTPS URL, `getResourceFromUrl` returns the
scheme+host prefix, truncating at the first path separator after the
8-character scheme prefix, and returns the input unchanged when no
path separator follows the scheme; in particular on the two
spec examples. -/
theorem getResourceFromUrl_spec (host path : String)
    (h : '/' ∉ host.toList) :
    getResourceFromUrl ("https://" ++ host ++ "/" ++ path) =
      "https://" ++ host ∧
    getResourceFromUrl ("https://" ++ host) = "https://" ++ host ∧
    getResourceFromUrl "https://contoso.sharepoint.com/sites/x" =
      "https://contoso.sharepoint.com" ∧
    getResourceFromUrl "https://contoso.sharepoint.com" =
      "https://contoso.sharepoint.com" := by
  have hlen : ("https://".toList).length = 8 := by decide
  have hurl : ("https://" ++ host ++ "/" ++ path).toList =
      "https://".toList ++ (host.toList ++ '/' :: path.toList) := by
    simp [toList_append_eq, List.append_assoc]
  have hdrop : ("https://" ++ host ++ "/" ++ path).toList.drop 8 =
      host.toList ++ '/' :: path.toList := by
    rw [hurl, List.drop_left' hlen]
  have hpos : stringIndexOfFrom ("https://" ++ host ++ "/" ++ path) '/' 8 =
      ((8 + host.toList.length : Nat) : Int) := by
    show indexOfFromAux '/'
      (("https://" ++ host ++ "/" ++ path).toList.drop 8) 8 = _
    rw [hdrop]
    exact indexOfFromAux_append_cons '/' host.toList path.toList h 8
  refine ⟨?_, ?_, by decide, by decide⟩
  · apply String.ext
    show (getResourceFromUrl ("https://" ++ host ++ "/" ++ path)).toList =
      ("https://" ++ host).toList
    simp only [getResourceFromUrl]
    rw [hpos, if_pos (by omega)]
    rw [List.toList_asString, Int.toNat_natCast]
    rw [hurl, ← List.append_assoc]
    have hlen2 : ("https://".toList ++ host.toList).length
        = 8 + host.toList.length := by
      rw [List.length_append, hlen]
    rw [List.take_left' hlen2]
    rfl
  · apply getResourceFromUrl_of_no_slash
    show indexOfFromAux '/' (("https://" ++ host).toList.drop 8) 8 = -1
    rw [toList_append_eq, List.drop_left' hlen]
    exact indexOfFromAux_of_not_mem '/' host.toList h 8

/-- Witness for C8 at the spec's concrete host and path. -/
theorem getResourceFromUrl_spec_witness :
    '/' ∉ ("contoso.sharepoint.com").toList ∧
    getResourceFromUrl ("https://" ++ "contoso.sharepoint.com" ++ "/" ++
        "sites/x") = "https://" ++ "contoso.sharepoint.com" := by
  have h : '/' ∉ ("contoso.sharepoint.com").toList := by decide
  exact ⟨h, (getResourceFromUrl_spec "contoso.sharepoint.com" "sites/x" h).1⟩

/-- C10: `getResourceFromUrl` is idempotent on every input string —
its result never contains a path separator at index 8 or later (the
search starts at index 8, so slashes inside the 8-character scheme
prefix never cause truncation), hence a second application changes
nothing. -/
theorem getResourceFromUrl_idempotent (s : String) :
    stringIndexOfFrom (getResourceFromUrl s) '/' 8 = -1 ∧
    getResourceFromUrl (getResourceFromUrl s) = getResourceFromUrl s := by
  have hmain : stringIndexOfFrom (getResourceFromUrl s) '/' 8 = -1 := by
    rcases indexOfFromAux_first '/' (s.toList.drop 8) 8 with h | ⟨k, hk, hmem⟩
    · rw [getResourceFromUrl_of_no_slash s h]
      exact h
    · have hpos : stringIndexOfFrom s '/' 8 = ((8 + k : Nat) : Int) := hk
      have hres : getResourceFromUrl s = (s.toList.take (8 + k)).asString := by
        simp only [getResourceFromUrl]
        rw [hpos, if_pos (by omega), Int.toNat_natCast]
      rw [hres]
      show indexOfFromAux '/'
        (((s.toList.take (8 + k)).asString).toList.drop 8) 8 = -1
      rw [List.toList_asString, ← List.take_drop]
      exact indexOfFromAux_of_not_mem '/' _ hmem 8
  exact ⟨hmain, getResourceFromUrl_of_no_slash _ hmain⟩
